import Mathlib

/-!
Shallow embedding of the password-reset OTP flow and the account-settings
change-password flow of the CodeConclave client
(src/src/components/Auth/OTPVerification.jsx and the Settings component).

External service calls (verifyOTP, resetPassword, changePassword) are modelled
as oracles: each handler takes the outcome the external call would produce as an
explicit argument, and returns, alongside the next component state, an Option
recording whether a network call was issued and with which arguments.
-/

/-- Component state of OTPVerification (OTPVerification.jsx lines 5-12):
otp, newPassword, confirmPassword, error, message, isSubmitting,
verificationToken (initially null, hence Option). -/
structure OTPState where
  otp : String
  newPassword : String
  confirmPassword : String
  error : Option String
  message : Option String
  isSubmitting : Bool
  verificationToken : Option String
  deriving DecidableEq, Repr

/-- Initial state of the OTPVerification component (useState initialisers,
lines 6-12). -/
def initOTPState : OTPState :=
  { otp := "", newPassword := "", confirmPassword := "", error := none,
    message := none, isSubmitting := false, verificationToken := none }

/-- Embedding of handleVerifyOTP (OTPVerification.jsx lines 14-27). The result
of the external verifyOTP call is passed as an oracle: Except.ok carries the
token the service returned, Except.error the optional server message
(err.response data message). The code ignores the returned token and stores
resetToken itself (line 20). The second component records the network call
made to verifyOTP with its two arguments (resetToken, otp). -/
def handleVerifyOTP (resetToken : String)
    (verifyResult : Except (Option String) String) (s : OTPState) :
    OTPState × Option (String × String) :=
  match verifyResult with
  | Except.ok _ =>
      ({ s with verificationToken := some resetToken, error := none,
                isSubmitting := false }, some (resetToken, s.otp))
  | Except.error m =>
      ({ s with error := some (m.getD "OTP verification failed"),
                isSubmitting := false }, some (resetToken, s.otp))

/-- Embedding of handlePasswordReset (OTPVerification.jsx lines 29-47). If
newPassword and confirmPassword differ the handler sets an error and returns
before any network call. Otherwise it calls resetPassword with the stored
verificationToken and the new password; the second component records that call
and its arguments. -/
def handlePasswordReset (resetResult : Except (Option String) Unit)
    (s : OTPState) : OTPState × Option (Option String × String) :=
  if s.newPassword ≠ s.confirmPassword then
    ({ s with error := some "Passwords do not match" }, none)
  else
    match resetResult with
    | Except.ok _ =>
        ({ s with
             message := some "Password reset successfully! You can now login with your new password.",
             isSubmitting := false },
         some (s.verificationToken, s.newPassword))
    | Except.error m =>
        ({ s with error := some (m.getD "Password reset failed"),
                  isSubmitting := false },
         some (s.verificationToken, s.newPassword))

/-- Truthiness of the stored token as tested by the JSX condition
(OTPVerification.jsx line 56): null and the empty string are falsy. -/
def tokenFalsy : Option String → Bool
  | none => true
  | some t => t = ""

/-- Which of the two forms the component renders (OTPVerification.jsx
lines 56-100): the OTP form while the token is falsy, the password form
afterwards. -/
inductive RenderedForm where
  | otpForm
  | passwordForm
  deriving DecidableEq, Repr

/-- Render selector of OTPVerification (line 56): the password-reset form, and
with it the only way to trigger handlePasswordReset, exists only once a
verification token is stored. -/
def renderedForm (s : OTPState) : RenderedForm :=
  if tokenFalsy s.verificationToken then RenderedForm.otpForm
  else RenderedForm.passwordForm

/-- Modelled from the spec: the onBack callback wired to the BackButton
(OTPVerification.jsx line 51) is supplied by a parent component whose source is
absent. Per the spec, the back action returns the controller to AwaitingOTP and
discards any stored VerificationToken, i.e. it resets the controller to its
initial state. -/
def backAction (_s : OTPState) : OTPState := initOTPState

/-- Predicate for a lowercase letter, mirroring the regex character class a-z
used in the Settings security section. -/
def isLowerAZ (c : Char) : Bool := decide ('a' ≤ c) && decide (c ≤ 'z')

/-- Predicate for an uppercase letter, mirroring the regex character class A-Z. -/
def isUpperAZ (c : Char) : Bool := decide ('A' ≤ c) && decide (c ≤ 'Z')

/-- Predicate for a digit, mirroring the regex character class 0-9. -/
def isDigit09 (c : Char) : Bool := decide ('0' ≤ c) && decide (c ≤ '9')

/-- The fixed special-character set of the Settings security section regex
(Settings component, line with the special-character RequirementItem). -/
def specialChars : List Char :=
  ['!', '@', '#', '$', '%', '^', '&', '*', '(', ')', '_', '+', '-', '=',
   '[', ']', '\x7b', '\x7d', ';', '\'', ':', '\"', '\\', '|', ',', '.',
   '<', '>', '/', '?']

/-- Password contains at least one lowercase letter. -/
def hasLower (p : String) : Bool := p.data.any isLowerAZ

/-- Password contains at least one uppercase letter. -/
def hasUpper (p : String) : Bool := p.data.any isUpperAZ

/-- Password contains at least one digit. -/
def hasDigit (p : String) : Bool := p.data.any isDigit09

/-- Password contains at least one character of the fixed special set. -/
def hasSpecial (p : String) : Bool := p.data.any (fun c => specialChars.contains c)

/-- Per-rule boolean vector rendered by the Settings security section
(the five RequirementItem conditions): each rule evaluated independently. -/
structure RuleVector where
  lengthOk : Bool
  lowerOk : Bool
  upperOk : Bool
  digitOk : Bool
  specialOk : Bool
  deriving DecidableEq, Repr

/-- The five independently evaluated rule booleans as computed inline in the
security section JSX (length greater or equal 8, and the four regex tests). -/
def passwordRuleVector (p : String) : RuleVector :=
  { lengthOk := decide (8 ≤ p.length), lowerOk := hasLower p,
    upperOk := hasUpper p, digitOk := hasDigit p, specialOk := hasSpecial p }

/-- Result shape of the password-policy validator: a verdict and a message
describing the failed rule. -/
structure ValidationResult where
  isValid : Bool
  message : String
  deriving DecidableEq, Repr

/-- Modelled from the spec: validatePassword is imported by the Settings
component from utils/validators, whose source file is absent. The spec defines
it as a pure function over the candidate with five rules, all of which must
pass, reporting the failed rule otherwise; the rules are the same five the
security section renders. -/
def validatePassword (p : String) : ValidationResult :=
  if ¬ (8 ≤ p.length) then
    { isValid := false, message := "Password must be at least 8 characters long" }
  else if ¬ hasLower p then
    { isValid := false, message := "Password must contain a lowercase letter" }
  else if ¬ hasUpper p then
    { isValid := false, message := "Password must contain an uppercase letter" }
  else if ¬ hasDigit p then
    { isValid := false, message := "Password must contain a number" }
  else if ¬ hasSpecial p then
    { isValid := false, message := "Password must contain a special character" }
  else
    { isValid := true, message := "" }

/-- The three password fields of the Settings component state
(passwordData useState initialiser). -/
structure PasswordData where
  currentPassword : String
  newPassword : String
  confirmPassword : String
  deriving DecidableEq, Repr

/-- Slice of the Settings component state relevant to the change-password
flow: passwordData, passwordError, passwordSuccess, isUpdatingPassword. -/
structure SettingsState where
  passwordData : PasswordData
  passwordError : String
  passwordSuccess : String
  isUpdatingPassword : Bool
  deriving DecidableEq, Repr

/-- Embedding of handlePasswordUpdate (Settings component). Local checks in
source order: missing current password, policy validation of the new password,
mismatch with the confirmation, and equality of current and new password; each
failure sets passwordError and returns with no network call. Otherwise
changePassword is called with (currentPassword, newPassword); on success all
three fields are cleared and a success message set, on failure the error
message is surfaced and all three fields are likewise cleared. The oracle
argument is the outcome of the external changePassword call. -/
def handlePasswordUpdate (changeResult : Except (Option String) Unit)
    (s : SettingsState) : SettingsState × Option (String × String) :=
  if s.passwordData.currentPassword = "" then
    ({ s with passwordError := "Current password is required" }, none)
  else if !(validatePassword s.passwordData.newPassword).isValid then
    ({ s with passwordError := (validatePassword s.passwordData.newPassword).message },
     none)
  else if s.passwordData.newPassword ≠ s.passwordData.confirmPassword then
    ({ s with passwordError := "New passwords do not match" }, none)
  else if s.passwordData.currentPassword = s.passwordData.newPassword then
    ({ s with passwordError := "New password must be different from current password" },
     none)
  else
    match changeResult with
    | Except.ok _ =>
        ({ s with passwordError := "",
                  passwordSuccess := "Password updated successfully!",
                  passwordData := { currentPassword := "", newPassword := "",
                                    confirmPassword := "" },
                  isUpdatingPassword := false },
         some (s.passwordData.currentPassword, s.passwordData.newPassword))
    | Except.error m =>
        ({ s with passwordError := m.getD "Failed to update password",
                  passwordData := { currentPassword := "", newPassword := "",
                                    confirmPassword := "" },
                  isUpdatingPassword := false },
         some (s.passwordData.currentPassword, s.passwordData.newPassword))

/-- Sample Settings state whose current and new passwords coincide on a
policy-valid password with matching confirmation. -/
def noopSampleState : SettingsState :=
  { passwordData := { currentPassword := "GoodPass1!", newPassword := "GoodPass1!",
                      confirmPassword := "GoodPass1!" },
    passwordError := "", passwordSuccess := "", isUpdatingPassword := false }

/-- Abstract submission state of one controller instance: the isSubmitting
flag (which the JSX wires to the submit button as its disabled attribute) and
the number of outstanding network calls. -/
structure SubmitState where
  isSubmitting : Bool
  inFlight : Nat
  deriving DecidableEq, Repr

/-- The submit button's disabled attribute equals isSubmitting
(OTPVerification.jsx lines 68 and 96; likewise the Settings save button). -/
def buttonDisabled (s : SubmitState) : Bool := s.isSubmitting

/-- Events of the single-threaded event loop: a submit event dispatched by the
form, and completion of an outstanding call (the finally block). -/
inductive SubmitEvent where
  | start
  | finish
  deriving DecidableEq, Repr

/-- One step of the event loop. A submit event reaches the handler only while
the button is enabled; the handler synchronously sets isSubmitting and issues
the call (lines 15-19). Completion runs the finally block, clearing
isSubmitting (line 25). An event is ignored (none) when not deliverable. -/
def submitStep (s : SubmitState) : SubmitEvent → Option SubmitState
  | SubmitEvent.start =>
      if buttonDisabled s then none
      else some { isSubmitting := true, inFlight := s.inFlight + 1 }
  | SubmitEvent.finish =>
      if s.inFlight = 0 then none
      else some { isSubmitting := false, inFlight := s.inFlight - 1 }

/-- States reachable from the initial mounted state (isSubmitting false, no
call outstanding) under the event loop. -/
inductive Reachable : SubmitState → Prop where
  | init : Reachable { isSubmitting := false, inFlight := 0 }
  | step : ∀ s e s2, Reachable s → submitStep s e = some s2 → Reachable s2

/-- Invariant of the event loop: the number of outstanding calls is exactly
one while isSubmitting and zero otherwise. -/
lemma reachable_inFlight_eq (s : SubmitState) (h : Reachable s) :
    s.inFlight = (if s.isSubmitting then 1 else 0) := by
  induction h with
  | init => simp
  | step s e s2 _ hstep ih =>
      cases e with
      | start =>
          simp only [submitStep, buttonDisabled] at hstep
          by_cases hb : s.isSubmitting
          · simp [hb] at hstep
          · simp [hb] at hstep ih
            subst hstep
            simp [ih]
      | finish =>
          simp only [submitStep] at hstep
          by_cases hz : s.inFlight = 0
          · simp [hz] at hstep
          · simp [hz] at hstep
            subst hstep
            by_cases hb : s.isSubmitting
            · simp [hb] at ih
              simp [ih]
            · simp [hb] at ih
              exact absurd ih hz

/-- C2: the password-policy validator accepts a candidate exactly when it has
length at least 8 and contains a lowercase letter, an uppercase letter, a
digit, and a character of the fixed special set; and its verdict coincides
with the conjunction of the five independently evaluated booleans of the
per-rule vector the security section renders. -/
theorem c2_policy_validator (p : String) :
    ((validatePassword p).isValid = true ↔
      (8 ≤ p.length ∧ hasLower p = true ∧ hasUpper p = true ∧
       hasDigit p = true ∧ hasSpecial p = true)) ∧
    (validatePassword p).isValid =
      ((passwordRuleVector p).lengthOk && (passwordRuleVector p).lowerOk &&
       (passwordRuleVector p).upperOk && (passwordRuleVector p).digitOk &&
       (passwordRuleVector p).specialOk) := by
  constructor
  · unfold validatePassword
    split_ifs <;> simp_all
  · unfold validatePassword passwordRuleVector
    split_ifs <;> simp_all

/-- C1 counterexample: with the external verifyOTP call returning a distinct
server-issued token, the controller stores the original resetToken, not the
returned token, as the VerificationToken. -/
theorem c1_counterexample :
    (handleVerifyOTP "reset-tok" (Except.ok "server-tok")
        initOTPState).1.verificationToken = some "reset-tok" ∧
    (handleVerifyOTP "reset-tok" (Except.ok "server-tok")
        initOTPState).1.verificationToken ≠ some "server-tok" := by
  exact ⟨rfl, by decide⟩

/-- C1 amended: after a successful submitOTP the stored VerificationToken is
the original resetToken (the first argument of the verifyOTP call), not the
token the call returned; and whenever handlePasswordReset issues a network
call, its first argument is the stored VerificationToken. -/
theorem c1_amended_stores_resetToken (rt t : String) (s s2 : OTPState)
    (res : Except (Option String) Unit) (args : Option String × String)
    (h : (handlePasswordReset res s2).2 = some args) :
    (handleVerifyOTP rt (Except.ok t) s).1.verificationToken = some rt ∧
    args.1 = s2.verificationToken := by
  refine ⟨rfl, ?_⟩
  unfold handlePasswordReset at h
  by_cases hm : s2.newPassword = s2.confirmPassword
  · cases res <;> simp [hm] at h <;> simp [← h]
  · simp [hm] at h

/-- C1 witness: concrete run instantiating the amended statement. -/
theorem c1_witness :
    (handleVerifyOTP "rt" (Except.ok "tok") initOTPState).1.verificationToken
        = some "rt" ∧
    ((some "vt", "npw") : Option String × String).1 =
      ({ otp := "", newPassword := "npw", confirmPassword := "npw",
         error := none, message := none, isSubmitting := false,
         verificationToken := some "vt" } : OTPState).verificationToken :=
  c1_amended_stores_resetToken "rt" "tok" initOTPState
    { otp := "", newPassword := "npw", confirmPassword := "npw", error := none,
      message := none, isSubmitting := false, verificationToken := some "vt" }
    (Except.ok ()) (some "vt", "npw") rfl

/-- C4: when newPassword differs from confirmPassword, handlePasswordReset
fails locally with the password-mismatch error and issues no network call. -/
theorem c4_mismatch_no_call (s : OTPState) (res : Except (Option String) Unit)
    (h : s.newPassword ≠ s.confirmPassword) :
    (handlePasswordReset res s).2 = none ∧
    (handlePasswordReset res s).1.error = some "Passwords do not match" := by
  simp [handlePasswordReset, h]

/-- C4 witness: concrete mismatching pair. -/
theorem c4_witness :
    (handlePasswordReset (Except.ok ())
      { otp := "", newPassword := "a", confirmPassword := "b", error := none,
        message := none, isSubmitting := false, verificationToken := none }).2
      = none ∧
    (handlePasswordReset (Except.ok ())
      { otp := "", newPassword := "a", confirmPassword := "b", error := none,
        message := none, isSubmitting := false,
        verificationToken := none }).1.error = some "Passwords do not match" :=
  c4_mismatch_no_call _ _ (by decide)

/-- C10: handlePasswordReset applies no password-policy check: whenever the
two entered passwords are equal, the resetPassword network call is issued with
the stored token and the new password, irrespective of the policy rules. -/
theorem c10_no_policy_check (s : OTPState) (res : Except (Option String) Unit)
    (h : s.newPassword = s.confirmPassword) :
    (handlePasswordReset res s).2 = some (s.verificationToken, s.newPassword) := by
  cases res <;> simp [handlePasswordReset, h]

/-- C10 witness: the single-character password violates every policy rule yet
the network call is still issued. -/
theorem c10_witness :
    (validatePassword "a").isValid = false ∧
    (handlePasswordReset (Except.ok ())
      { otp := "", newPassword := "a", confirmPassword := "a", error := none,
        message := none, isSubmitting := false, verificationToken := none }).2
      = some (none, "a") :=
  ⟨by decide, c10_no_policy_check _ _ rfl⟩

/-- C3 counterexample: a state where currentPassword equals newPassword (both
empty) in which handlePasswordUpdate reports the missing-current-password
error, not the no-op-change error (no network call occurs either way). -/
theorem c3_counterexample :
    (handlePasswordUpdate (Except.ok ())
      { passwordData := { currentPassword := "", newPassword := "",
                          confirmPassword := "" },
        passwordError := "", passwordSuccess := "",
        isUpdatingPassword := false }).1.passwordError
      = "Current password is required" ∧
    (handlePasswordUpdate (Except.ok ())
      { passwordData := { currentPassword := "", newPassword := "",
                          confirmPassword := "" },
        passwordError := "", passwordSuccess := "",
        isUpdatingPassword := false }).1.passwordError
      ≠ "New password must be different from current password" ∧
    (handlePasswordUpdate (Except.ok ())
      { passwordData := { currentPassword := "", newPassword := "",
                          confirmPassword := "" },
        passwordError := "", passwordSuccess := "",
        isUpdatingPassword := false }).2 = none := by
  exact ⟨rfl, by decide, rfl⟩

/-- The failure messages of the modelled validator never coincide with the
no-op-change message of handlePasswordUpdate. -/
lemma validatePassword_message_ne_noop (p : String)
    (h : (validatePassword p).isValid = false) :
    (validatePassword p).message ≠
      "New password must be different from current password" := by
  unfold validatePassword at h ⊢
  split_ifs at h ⊢ <;> decide

/-- C3 amended: whenever currentPassword equals newPassword no network call is
made; the reported error is the no-op-change message exactly when the earlier
local checks pass (nonempty current password, policy-valid new password,
matching confirmation); otherwise the earlier check's own error is reported:
the missing-current-password message, the validator's message, or the
mismatch message, respectively. -/
theorem c3_amended_noop_change (s : SettingsState)
    (res : Except (Option String) Unit)
    (h : s.passwordData.currentPassword = s.passwordData.newPassword) :
    (handlePasswordUpdate res s).2 = none ∧
    ((handlePasswordUpdate res s).1.passwordError =
        "New password must be different from current password" ↔
      (s.passwordData.currentPassword ≠ "" ∧
       (validatePassword s.passwordData.newPassword).isValid = true ∧
       s.passwordData.newPassword = s.passwordData.confirmPassword)) ∧
    (s.passwordData.currentPassword = "" →
      (handlePasswordUpdate res s).1.passwordError =
        "Current password is required") ∧
    (s.passwordData.currentPassword ≠ "" →
      (validatePassword s.passwordData.newPassword).isValid = false →
      (handlePasswordUpdate res s).1.passwordError =
        (validatePassword s.passwordData.newPassword).message) ∧
    (s.passwordData.currentPassword ≠ "" →
      (validatePassword s.passwordData.newPassword).isValid = true →
      s.passwordData.newPassword ≠ s.passwordData.confirmPassword →
      (handlePasswordUpdate res s).1.passwordError =
        "New passwords do not match") := by
  have hlit1 : ("Current password is required" : String) ≠
      "New password must be different from current password" := by decide
  have hlit2 : ("New passwords do not match" : String) ≠
      "New password must be different from current password" := by decide
  unfold handlePasswordUpdate
  by_cases h1 : s.passwordData.currentPassword = ""
  · rw [if_pos h1]
    refine ⟨rfl, ⟨fun he => absurd he hlit1, ?_⟩, fun _ => rfl,
            fun hne _ => absurd h1 hne, fun hne _ _ => absurd h1 hne⟩
    rintro ⟨hne, -, -⟩
    exact absurd h1 hne
  · by_cases h2 : (validatePassword s.passwordData.newPassword).isValid = true
    · by_cases h3 : s.passwordData.newPassword = s.passwordData.confirmPassword
      · rw [if_neg h1, if_neg (by simp [h2]), if_neg (by simp [h3]), if_pos h]
        exact ⟨rfl, ⟨fun _ => ⟨h1, h2, h3⟩, fun _ => rfl⟩, fun hc => absurd hc h1,
               fun _ hv => absurd hv (by simp [h2]), fun _ _ hne => absurd h3 hne⟩
      · rw [if_neg h1, if_neg (by simp [h2]), if_pos h3]
        refine ⟨rfl, ⟨fun he => absurd he hlit2, ?_⟩, fun hc => absurd hc h1,
                fun _ hv => absurd hv (by simp [h2]), fun _ _ _ => rfl⟩
        rintro ⟨-, -, hc⟩
        exact absurd hc h3
    · have hv : (validatePassword s.passwordData.newPassword).isValid = false := by
        cases hvv : (validatePassword s.passwordData.newPassword).isValid
        · rfl
        · exact absurd hvv h2
      rw [if_neg h1, if_pos (by simp [hv])]
      refine ⟨rfl, ⟨fun he => absurd he (validatePassword_message_ne_noop _ hv), ?_⟩,
              fun hc => absurd hc h1, fun _ _ => rfl, fun _ hval => absurd hval h2⟩
      rintro ⟨-, hval, -⟩
      exact absurd hval h2

/-- C3 witness: concrete state exercising the amended statement, with the
no-op-change error actually reported. -/
theorem c3_witness :
    (handlePasswordUpdate (Except.ok ()) noopSampleState).2 = none ∧
    ((handlePasswordUpdate (Except.ok ()) noopSampleState).1.passwordError =
        "New password must be different from current password" ↔
      (noopSampleState.passwordData.currentPassword ≠ "" ∧
       (validatePassword noopSampleState.passwordData.newPassword).isValid = true ∧
       noopSampleState.passwordData.newPassword =
         noopSampleState.passwordData.confirmPassword)) ∧
    (noopSampleState.passwordData.currentPassword = "" →
      (handlePasswordUpdate (Except.ok ()) noopSampleState).1.passwordError =
        "Current password is required") ∧
    (noopSampleState.passwordData.currentPassword ≠ "" →
      (validatePassword noopSampleState.passwordData.newPassword).isValid = false →
      (handlePasswordUpdate (Except.ok ()) noopSampleState).1.passwordError =
        (validatePassword noopSampleState.passwordData.newPassword).message) ∧
    (noopSampleState.passwordData.currentPassword ≠ "" →
      (validatePassword noopSampleState.passwordData.newPassword).isValid = true →
      noopSampleState.passwordData.newPassword ≠
        noopSampleState.passwordData.confirmPassword →
      (handlePasswordUpdate (Except.ok ()) noopSampleState).1.passwordError =
        "New passwords do not match") :=
  c3_amended_noop_change noopSampleState (Except.ok ()) rfl

/-- C5: whenever the external changePassword call was actually issued and
failed, all three password fields are cleared to the empty string. -/
theorem c5_remote_failure_clears (s : SettingsState) (m : Option String)
    (h : (handlePasswordUpdate (Except.error m) s).2 ≠ none) :
    (handlePasswordUpdate (Except.error m) s).1.passwordData =
      { currentPassword := "", newPassword := "", confirmPassword := "" } := by
  unfold handlePasswordUpdate at h ⊢
  split_ifs at h ⊢ <;> simp_all

/-- C5 witness: concrete failing run with all local checks passing. -/
theorem c5_witness :
    (handlePasswordUpdate (Except.error (some "Server rejected"))
      { passwordData := { currentPassword := "OldPass1!",
                          newPassword := "GoodPass1!",
                          confirmPassword := "GoodPass1!" },
        passwordError := "", passwordSuccess := "",
        isUpdatingPassword := false }).1.passwordData =
      { currentPassword := "", newPassword := "", confirmPassword := "" } :=
  c5_remote_failure_clears _ _ (by decide)

/-- C6: every local validation failure in either flow (missing current
password, policy violation, mismatch, or no-op change in the change-password
flow; mismatch in the reset flow) returns before any network call and leaves
every already-entered input field unchanged. -/
theorem c6_local_failure_frame (s : SettingsState) (r : OTPState)
    (res1 res2 : Except (Option String) Unit)
    (h1 : s.passwordData.currentPassword = "" ∨
          (validatePassword s.passwordData.newPassword).isValid = false ∨
          s.passwordData.newPassword ≠ s.passwordData.confirmPassword ∨
          s.passwordData.currentPassword = s.passwordData.newPassword)
    (h2 : r.newPassword ≠ r.confirmPassword) :
    ((handlePasswordUpdate res1 s).2 = none ∧
     (handlePasswordUpdate res1 s).1.passwordData = s.passwordData) ∧
    ((handlePasswordReset res2 r).2 = none ∧
     (handlePasswordReset res2 r).1.otp = r.otp ∧
     (handlePasswordReset res2 r).1.newPassword = r.newPassword ∧
     (handlePasswordReset res2 r).1.confirmPassword = r.confirmPassword) := by
  constructor
  · unfold handlePasswordUpdate
    split_ifs with g1 g2 g3 g4
    · simp
    · simp
    · simp
    · simp
    · exfalso
      simp at g2
      rcases h1 with h | h | h | h
      · exact g1 h
      · rw [h] at g2
        cases g2
      · exact g3 h
      · exact g4 h
  · simp [handlePasswordReset, h2]

/-- C6 witness: concrete local failures in both flows. -/
theorem c6_witness :
    ((handlePasswordUpdate (Except.ok ())
       { passwordData := { currentPassword := "", newPassword := "x",
                           confirmPassword := "x" },
         passwordError := "", passwordSuccess := "",
         isUpdatingPassword := false }).2 = none ∧
     (handlePasswordUpdate (Except.ok ())
       { passwordData := { currentPassword := "", newPassword := "x",
                           confirmPassword := "x" },
         passwordError := "", passwordSuccess := "",
         isUpdatingPassword := false }).1.passwordData =
       ({ passwordData := { currentPassword := "", newPassword := "x",
                            confirmPassword := "x" },
          passwordError := "", passwordSuccess := "",
          isUpdatingPassword := false } : SettingsState).passwordData) ∧
    ((handlePasswordReset (Except.ok ())
       { otp := "123456", newPassword := "a", confirmPassword := "b",
         error := none, message := none, isSubmitting := false,
         verificationToken := none }).2 = none ∧
     (handlePasswordReset (Except.ok ())
       { otp := "123456", newPassword := "a", confirmPassword := "b",
         error := none, message := none, isSubmitting := false,
         verificationToken := none }).1.otp =
       ({ otp := "123456", newPassword := "a", confirmPassword := "b",
          error := none, message := none, isSubmitting := false,
          verificationToken := none } : OTPState).otp ∧
     (handlePasswordReset (Except.ok ())
       { otp := "123456", newPassword := "a", confirmPassword := "b",
         error := none, message := none, isSubmitting := false,
         verificationToken := none }).1.newPassword =
       ({ otp := "123456", newPassword := "a", confirmPassword := "b",
          error := none, message := none, isSubmitting := false,
          verificationToken := none } : OTPState).newPassword ∧
     (handlePasswordReset (Except.ok ())
       { otp := "123456", newPassword := "a", confirmPassword := "b",
         error := none, message := none, isSubmitting := false,
         verificationToken := none }).1.confirmPassword =
       ({ otp := "123456", newPassword := "a", confirmPassword := "b",
          error := none, message := none, isSubmitting := false,
          verificationToken := none } : OTPState).confirmPassword) :=
  c6_local_failure_frame _ _ _ _ (Or.inl rfl) (by decide)

/-- C7: in every reachable state of the single-threaded event loop, at most
one network call is outstanding; and while isSubmitting is set the submit
button is disabled, so a further submit event is ignored (no second
submission can start). -/
theorem c7_single_flight (s : SubmitState) (h : Reachable s) :
    s.inFlight ≤ 1 ∧
    (s.isSubmitting = true → submitStep s SubmitEvent.start = none) := by
  have hi := reachable_inFlight_eq s h
  refine ⟨?_, ?_⟩
  · rw [hi]
    split <;> omega
  · intro hb
    simp [submitStep, buttonDisabled, hb]

/-- C7 witness: the state reached after one submit event has one outstanding
call and ignores a second submit event. -/
theorem c7_witness :
    ({ isSubmitting := true, inFlight := 1 } : SubmitState).inFlight ≤ 1 ∧
    (({ isSubmitting := true, inFlight := 1 } : SubmitState).isSubmitting = true →
      submitStep { isSubmitting := true, inFlight := 1 } SubmitEvent.start = none) :=
  c7_single_flight { isSubmitting := true, inFlight := 1 }
    (Reachable.step { isSubmitting := false, inFlight := 0 } SubmitEvent.start
      { isSubmitting := true, inFlight := 1 } Reachable.init rfl)

/-- C8 counterexample: a successful password reset in the reset flow leaves
the OTP code and the entered password fields in component state, uncleared. -/
theorem c8_counterexample :
    (handlePasswordReset (Except.ok ())
      { otp := "123456", newPassword := "Secret1!x", confirmPassword := "Secret1!x",
        error := none, message := none, isSubmitting := false,
        verificationToken := some "rt" }).1.message =
      some "Password reset successfully! You can now login with your new password." ∧
    (handlePasswordReset (Except.ok ())
      { otp := "123456", newPassword := "Secret1!x", confirmPassword := "Secret1!x",
        error := none, message := none, isSubmitting := false,
        verificationToken := some "rt" }).1.newPassword = "Secret1!x" ∧
    (handlePasswordReset (Except.ok ())
      { otp := "123456", newPassword := "Secret1!x", confirmPassword := "Secret1!x",
        error := none, message := none, isSubmitting := false,
        verificationToken := some "rt" }).1.otp = "123456" ∧
    ("Secret1!x" : String) ≠ "" := by
  exact ⟨rfl, rfl, rfl, by decide⟩

/-- C8 amended: the change-password flow clears all three password fields
whenever the external call was issued, on success and on failure alike; the
reset-flow handlers never clear the OTP code or the password fields, in any
outcome of either handleVerifyOTP or handlePasswordReset. -/
theorem c8_amended_clearing (s : SettingsState) (r : OTPState) (rt : String)
    (vres : Except (Option String) String)
    (res res2 : Except (Option String) Unit)
    (h : (handlePasswordUpdate res s).2 ≠ none) :
    (handlePasswordUpdate res s).1.passwordData =
      { currentPassword := "", newPassword := "", confirmPassword := "" } ∧
    ((handleVerifyOTP rt vres r).1.otp = r.otp ∧
     (handleVerifyOTP rt vres r).1.newPassword = r.newPassword ∧
     (handleVerifyOTP rt vres r).1.confirmPassword = r.confirmPassword) ∧
    ((handlePasswordReset res2 r).1.otp = r.otp ∧
     (handlePasswordReset res2 r).1.newPassword = r.newPassword ∧
     (handlePasswordReset res2 r).1.confirmPassword = r.confirmPassword) := by
  refine ⟨?_, ?_, ?_⟩
  · unfold handlePasswordUpdate at h ⊢
    split_ifs at h ⊢ <;> cases res <;> simp_all
  · cases vres <;> simp [handleVerifyOTP]
  · unfold handlePasswordReset
    split_ifs <;> cases res2 <;> simp

/-- C8 amended witness: concrete runs of both flows. -/
theorem c8_witness :
    (handlePasswordUpdate (Except.ok ())
      { passwordData := { currentPassword := "OldPass1!",
                          newPassword := "GoodPass1!",
                          confirmPassword := "GoodPass1!" },
        passwordError := "", passwordSuccess := "",
        isUpdatingPassword := false }).1.passwordData =
      { currentPassword := "", newPassword := "", confirmPassword := "" } ∧
    ((handleVerifyOTP "rt2" (Except.ok "tok")
       { otp := "123456", newPassword := "Npw1!aaa", confirmPassword := "Npw1!aaa",
         error := none, message := none, isSubmitting := false,
         verificationToken := some "rt" }).1.otp =
       ({ otp := "123456", newPassword := "Npw1!aaa", confirmPassword := "Npw1!aaa",
          error := none, message := none, isSubmitting := false,
          verificationToken := some "rt" } : OTPState).otp ∧
     (handleVerifyOTP "rt2" (Except.ok "tok")
       { otp := "123456", newPassword := "Npw1!aaa", confirmPassword := "Npw1!aaa",
         error := none, message := none, isSubmitting := false,
         verificationToken := some "rt" }).1.newPassword =
       ({ otp := "123456", newPassword := "Npw1!aaa", confirmPassword := "Npw1!aaa",
          error := none, message := none, isSubmitting := false,
          verificationToken := some "rt" } : OTPState).newPassword ∧
     (handleVerifyOTP "rt2" (Except.ok "tok")
       { otp := "123456", newPassword := "Npw1!aaa", confirmPassword := "Npw1!aaa",
         error := none, message := none, isSubmitting := false,
         verificationToken := some "rt" }).1.confirmPassword =
       ({ otp := "123456", newPassword := "Npw1!aaa", confirmPassword := "Npw1!aaa",
          error := none, message := none, isSubmitting := false,
          verificationToken := some "rt" } : OTPState).confirmPassword) ∧
    ((handlePasswordReset (Except.error none)
       { otp := "123456", newPassword := "Npw1!aaa", confirmPassword := "Npw1!aaa",
         error := none, message := none, isSubmitting := false,
         verificationToken := some "rt" }).1.otp =
       ({ otp := "123456", newPassword := "Npw1!aaa", confirmPassword := "Npw1!aaa",
          error := none, message := none, isSubmitting := false,
          verificationToken := some "rt" } : OTPState).otp ∧
     (handlePasswordReset (Except.error none)
       { otp := "123456", newPassword := "Npw1!aaa", confirmPassword := "Npw1!aaa",
         error := none, message := none, isSubmitting := false,
         verificationToken := some "rt" }).1.newPassword =
       ({ otp := "123456", newPassword := "Npw1!aaa", confirmPassword := "Npw1!aaa",
          error := none, message := none, isSubmitting := false,
          verificationToken := some "rt" } : OTPState).newPassword ∧
     (handlePasswordReset (Except.error none)
       { otp := "123456", newPassword := "Npw1!aaa", confirmPassword := "Npw1!aaa",
         error := none, message := none, isSubmitting := false,
         verificationToken := some "rt" }).1.confirmPassword =
       ({ otp := "123456", newPassword := "Npw1!aaa", confirmPassword := "Npw1!aaa",
          error := none, message := none, isSubmitting := false,
          verificationToken := some "rt" } : OTPState).confirmPassword) :=
  c8_amended_clearing _ _ "rt2" (Except.ok "tok") (Except.ok ())
    (Except.error none) (by decide)

/-- C9: the back action returns the controller to the initial AwaitingOTP
state, discarding the stored VerificationToken; the component then renders the
OTP form, so submitting a new password without re-verifying the OTP is
structurally impossible. -/
theorem c9_back_resets (s : OTPState) :
    backAction s = initOTPState ∧
    (backAction s).verificationToken = none ∧
    renderedForm (backAction s) = RenderedForm.otpForm :=
  ⟨rfl, rfl, rfl⟩
